import Mathlib

/-!
Shallow embedding of the spicy-music-backend music module
(`src/controllers/musicController.ts`, `src/middleware/validation.ts`,
`src/server.ts`, `src/routers/musicRouter.ts`) together with proofs of the
behavioural properties stated in the specification.

The Mongo record store is modelled as a `List MusicEntry`; the store
primitives used by the controller (`find` with skip/limit, `countDocuments`,
`distinct`, and the aggregation pipelines) are embedded as pure list
functions.  Query-string values arrive as `Option String` (a missing key is
`none`), and JavaScript number parsing / truthiness is modelled explicitly.
-/

namespace SpicyMusic

/-- A music record as stored by the Music model: `title`, `artist`, `album`,
`albumArt`, the non-empty `genres` array, and the two timestamps (modelled as
naturals, only their ordering matters). -/
structure MusicEntry where
  title : String
  artist : String
  album : String
  albumArt : String
  genres : List String
  createdAt : Nat
  updatedAt : Nat
deriving DecidableEq, Repr

/-! ## JavaScript `parseInt` and truthiness

`getMusic` and `searchMusic` read `page` and `limit` with
`parseInt(req.query.page as string) || 1` (resp. `|| 10`).  We embed
`parseInt` (radix argument omitted, so radix 10 with the `0x` hex-prefix
special case) returning `none` for `NaN`, and the `||` fallback, which also
replaces a parsed `0` because `0` is falsy in JavaScript. -/

/-- JavaScript `StrWhiteSpace` characters skipped by `parseInt` (the common
ASCII ones). -/
def jsIsSpace (c : Char) : Bool :=
  c == ' ' || c == '\t' || c == '\n' || c == '\r' || c == '\x0b' || c == '\x0c'

/-- ASCII lower-casing of one character (`$toLower` in Mongo and
`new RegExp(p, 'i')` are ASCII-insensitive for the ASCII range). -/
def charToLower (c : Char) : Char :=
  if 'A'.toNat ≤ c.toNat ∧ c.toNat ≤ 'Z'.toNat then Char.ofNat (c.toNat + 32) else c

/-- ASCII lower-casing of a string. -/
def strLower (s : String) : String := (s.toList.map charToLower).asString

/-- `trim()`: strip leading and trailing whitespace. -/
def strTrim (s : String) : String :=
  ((s.toList.dropWhile jsIsSpace).reverse.dropWhile jsIsSpace).reverse.asString

/-- Lexicographic order on character lists by code point (the binary
collation Mongo uses for string sort keys). -/
def charListLe : List Char → List Char → Bool
  | [], _ => true
  | _ :: _, [] => false
  | a :: as, b :: bs =>
    if a.toNat < b.toNat then true
    else if b.toNat < a.toNat then false
    else charListLe as bs

/-- Lexicographic string order by code point. -/
def strLe (a b : String) : Bool := charListLe a.toList b.toList

def isDecDigit (c : Char) : Bool := '0' ≤ c && c ≤ '9'

def isHexDigit (c : Char) : Bool :=
  isDecDigit c || ('a' ≤ c && c ≤ 'f') || ('A' ≤ c && c ≤ 'F')

def decDigitVal (c : Char) : Nat := c.toNat - '0'.toNat

def hexDigitVal (c : Char) : Nat :=
  if isDecDigit c then decDigitVal c
  else if 'a' ≤ c && c ≤ 'f' then c.toNat - 'a'.toNat + 10
  else c.toNat - 'A'.toNat + 10

def digitsVal (base : Nat) (ds : List Char) (dval : Char → Nat) : Nat :=
  ds.foldl (fun acc c => acc * base + dval c) 0

/-- `parseInt(s)` with the radix argument omitted: skip leading whitespace,
read an optional sign, then either a `0x`/`0X` hexadecimal literal or the
longest prefix of decimal digits; `none` models `NaN`. -/
def jsParseInt (s : String) : Option Int :=
  let cs := s.toList.dropWhile jsIsSpace
  let (sign, body) : Int × List Char :=
    match cs with
    | '-' :: t => (-1, t)
    | '+' :: t => (1, t)
    | _ => (1, cs)
  match body with
  | '0' :: c :: t =>
    if c == 'x' || c == 'X' then
      let ds := t.takeWhile isHexDigit
      if ds.isEmpty then none
      else some (sign * Int.ofNat (digitsVal 16 ds hexDigitVal))
    else
      some (sign * Int.ofNat (digitsVal 10 (('0' :: c :: t).takeWhile isDecDigit) decDigitVal))
  | _ =>
    let ds := body.takeWhile isDecDigit
    if ds.isEmpty then none
    else some (sign * Int.ofNat (digitsVal 10 ds decDigitVal))

/-- `parseInt(v) || d` for an optional query value `v`: an absent key parses
to `NaN`, and both `NaN` and `0` are falsy, so they fall back to `d`. -/
def parseIntOr (d : Int) (v : Option String) : Int :=
  match v with
  | none => d
  | some s =>
    match jsParseInt s with
    | none => d
    | some n => if n = 0 then d else n

/-- `req.query.page`: `parseInt(req.query.page as string) || 1`. -/
def pageParam (v : Option String) : Int := parseIntOr 1 v

/-- `req.query.limit`: `parseInt(req.query.limit as string) || 10`. -/
def limitParam (v : Option String) : Int := parseIntOr 10 v

/-- `(req.query.sortBy as string) || 'createdAt'` (the empty string is
falsy). -/
def sortByParam (v : Option String) : String :=
  match v with
  | none => "createdAt"
  | some s => if s = "" then "createdAt" else s

/-- `(req.query.sortOrder as string) || 'desc'`. -/
def sortOrderParam (v : Option String) : String :=
  match v with
  | none => "desc"
  | some s => if s = "" then "desc" else s

/-! ## Filter construction (`getMusic`, lines 74–95)

The controller builds a Mongo filter object by conditionally attaching keys:
`if (search) filter.$text = …; if (artist) filter.artist = /artist/i; …`.
A JavaScript string is truthy iff it is defined and non-empty. -/

/-- The value of an optional query-string parameter after the `if (v)`
truthiness test: `none` when the key is absent or the value is the empty
string. -/
def truthy (v : Option String) : Option String :=
  match v with
  | none => none
  | some s => if s = "" then none else some s

/-- The filter object built by `getMusic`: each field is `some pattern` when
the corresponding key was attached. -/
structure MusicFilter where
  search : Option String
  artist : Option String
  album : Option String
  genre : Option String
deriving DecidableEq, Repr

/-- Lines 75–91 of `musicController.ts`: attach `$text`, `artist`, `album`
and `genres` clauses for each truthy parameter. -/
def buildFilter (search artist album genre : Option String) : MusicFilter :=
  { search := truthy search
    artist := truthy artist
    album := truthy album
    genre := truthy genre }

/-- Does `pat` start the character list `s`? -/
def charsStartWith : List Char → List Char → Bool
  | [], _ => true
  | _ :: _, [] => false
  | a :: as, b :: bs => a == b && charsStartWith as bs

/-- Does `pat` occur contiguously inside `s`? -/
def charsHaveSub (pat : List Char) : List Char → Bool
  | [] => pat.isEmpty
  | c :: rest => charsStartWith pat (c :: rest) || charsHaveSub pat rest

/-- `new RegExp(pat, 'i').test(s)`: case-insensitive substring test (the
pattern is treated literally; regex metacharacters are not modelled). -/
def ciTest (pat s : String) : Bool :=
  charsHaveSub (pat.toList.map charToLower) (s.toList.map charToLower)

/-- Split a string into its lower-cased words (maximal space-free runs). -/
def splitWordsAux : List Char → List Char → List (List Char)
  | [], acc => if acc.isEmpty then [] else [acc.reverse]
  | c :: rest, acc =>
    if c == ' ' then
      if acc.isEmpty then splitWordsAux rest [] else acc.reverse :: splitWordsAux rest []
    else splitWordsAux rest (c :: acc)

def wordsCI (s : String) : List (List Char) := splitWordsAux (s.toList.map charToLower) []

/-- Modelled from the spec: the `Music` model (`src/models/Music.ts`, which
declares the text index that `$text: { $search: q }` queries, is not in the
repository snapshot).  Per the spec the text search is "a full-text match
against `title`, `artist`, `album` (OR semantics across fields)": a document
matches when some search term occurs among the words of one of the three
fields, case-insensitively. -/
def textMatches (q : String) (m : MusicEntry) : Bool :=
  let ws := wordsCI m.title ++ wordsCI m.artist ++ wordsCI m.album
  (wordsCI q).any (fun t => ws.contains t)

/-- Mongo `find(filter)` membership semantics: a document satisfies the
filter object iff it satisfies every attached clause (implicit AND).
`genres: { $in: [/genre/i] }` matches when some array element matches. -/
def matchesFilter (f : MusicFilter) (m : MusicEntry) : Bool :=
  (match f.search with | none => true | some q => textMatches q m) &&
  (match f.artist with | none => true | some p => ciTest p m.artist) &&
  (match f.album with | none => true | some p => ciTest p m.album) &&
  (match f.genre with | none => true | some p => m.genres.any (fun g => ciTest p g))

/-! ## Sorting and pagination (`getMusic`, lines 93–114) -/

/-- Comparison of two documents on the single sort field `sb` (ascending);
a field name outside the schema compares all documents as equal. -/
def fieldLe (sb : String) (a b : MusicEntry) : Bool :=
  if sb = "title" then strLe a.title b.title
  else if sb = "artist" then strLe a.artist b.artist
  else if sb = "album" then strLe a.album b.album
  else if sb = "albumArt" then strLe a.albumArt b.albumArt
  else if sb = "createdAt" then decide (a.createdAt ≤ b.createdAt)
  else if sb = "updatedAt" then decide (a.updatedAt ≤ b.updatedAt)
  else true

/-- `sort[sortBy] = sortOrder === 'desc' ? -1 : 1` applied as a comparator. -/
def sortLe (sb so : String) (a b : MusicEntry) : Bool :=
  if so = "desc" then fieldLe sb b a else fieldLe sb a b

/-- `Music.find(filter).sort(sort)`: the matching documents in sort order. -/
def findSorted (f : MusicFilter) (sb so : String) (l : List MusicEntry) : List MusicEntry :=
  (l.filter (matchesFilter f)).insertionSort (fun a b => sortLe sb so a b = true)

/-- `Math.ceil(a / b)` for integers (`b ≠ 0`). -/
def jsCeilDiv (a b : Int) : Int := -((-a).fdiv b)

/-- The listing envelope sent by `getMusic` and `searchMusic` on success. -/
structure ListResponse where
  success : Bool
  message : String
  data : List MusicEntry
  count : Nat
  total : Nat
  page : Int
  pages : Int
deriving DecidableEq, Repr

/-- The raw query string of a `GET /music` request. -/
structure GetMusicQuery where
  page : Option String := none
  limit : Option String := none
  search : Option String := none
  artist : Option String := none
  album : Option String := none
  genre : Option String := none
  sortBy : Option String := none
  sortOrder : Option String := none

/-- `getMusic` (lines 61–119): parse paging and sorting parameters, build the
filter, fetch the page with `skip((page-1)*limit).limit(limit)`, count the
matching documents, and assemble the envelope. -/
def getMusic (q : GetMusicQuery) (store : List MusicEntry) : ListResponse :=
  let page := pageParam q.page
  let limit := limitParam q.limit
  let sortBy := sortByParam q.sortBy
  let sortOrder := sortOrderParam q.sortOrder
  let skip := (page - 1) * limit
  let f := buildFilter q.search q.artist q.album q.genre
  let music := ((findSorted f sortBy sortOrder store).drop skip.toNat).take limit.toNat
  let total := (store.filter (matchesFilter f)).length
  { success := true
    message := if total > 0 then "Music retrieved successfully" else "No music found"
    data := music
    count := music.length
    total := total
    page := page
    pages := jsCeilDiv (Int.ofNat total) limit }

/-! ## `searchMusic` (lines 249–288) -/

/-- Modelled from the spec: the relevance score (`$meta: 'textScore'`) of the
store's text index is not in the repository; per the spec results are
"ranked by relevance score descending".  The score counts the query terms
occurring among the document's field words. -/
def textScore (q : String) (m : MusicEntry) : Nat :=
  let ws := wordsCI m.title ++ wordsCI m.artist ++ wordsCI m.album
  ((wordsCI q).filter (fun t => ws.contains t)).length

/-- Outcome of a `GET /music/search` request. -/
inductive SearchResult where
  | badRequest (status : Nat) (message : String)
  | ok (status : Nat) (resp : ListResponse)
deriving DecidableEq, Repr

/-- `searchMusic` (lines 249–288), paired with the number of store queries
executed (`find` and `countDocuments`).  `if (!q)` rejects an absent or
empty query with 400 before any store access. -/
def searchMusic (q : Option String) (pageV limitV : Option String)
    (store : List MusicEntry) : SearchResult × Nat :=
  let page := pageParam pageV
  let limit := limitParam limitV
  let skip := (page - 1) * limit
  match truthy q with
  | none => (.badRequest 400 "Search query is required", 0)
  | some qs =>
    let matched := store.filter (textMatches qs)
    let ranked := matched.insertionSort (fun a b => textScore qs b ≤ textScore qs a)
    let music := (ranked.drop skip.toNat).take limit.toNat
    let total := matched.length
    (.ok 200
      { success := true
        message := "Search completed successfully"
        data := music
        count := music.length
        total := total
        page := page
        pages := jsCeilDiv (Int.ofNat total) limit }, 2)

/-! ## Statistics engine (`getMusicStatistics`, lines 291–369)

The four aggregation pipelines are embedded as pure functions over the
record list; `$group` enumerates keys in first-occurrence order (`dedup`),
and `$sort` sorts by the stage's key (embedded as insertion sort). -/

/-- `$unwind: '$genres'` followed by reading `'$genres'`: the multiset of
(record, genre) pairs, represented by the flattened genre list. -/
def unwindGenres (l : List MusicEntry) : List String := (l.map (·.genres)).flatten

/-- Lines 297–301: `$unwind` + `$group: { _id: '$genres' }` + `$count`:
the number of distinct genres across the flattened list. -/
def totalGenres (l : List MusicEntry) : Nat := (unwindGenres l).dedup.length

/-- One output document of the songs-per-genre pipeline:
`{ _id: <genre>, count }`. -/
structure GenreCount where
  _id : String
  count : Nat
deriving DecidableEq, Repr

/-- Lines 304–308: `$unwind` + `$group: { _id: '$genres', count: { $sum: 1 } }`
+ `$sort: { count: -1 }`. -/
def songsPerGenre (l : List MusicEntry) : List GenreCount :=
  let flat := unwindGenres l
  (flat.dedup.map (fun g => { _id := g, count := flat.count g })).insertionSort
    (fun a b => b.count ≤ a.count)

/-- One output document of the artist pipeline after the `$project` stage. -/
structure ArtistStat where
  artist : String
  songCount : Nat
  albums : List String
  albumCount : Nat
  artistLower : String
deriving DecidableEq, Repr

/-- Lines 311–329: `$group: { _id: '$artist', songCount: { $sum: 1 },
albums: { $addToSet: '$album' } }`, `$project` adding
`albumCount: { $size: '$albums' }` and `artistLower: { $toLower: '$_id' }`,
then `$sort: { artistLower: 1 }`. -/
def artistStats (l : List MusicEntry) : List ArtistStat :=
  let arts := (l.map (·.artist)).dedup
  (arts.map (fun a =>
    let grp := l.filter (fun m => decide (m.artist = a))
    let albs := (grp.map (·.album)).dedup
    { artist := a
      songCount := grp.length
      albums := albs
      albumCount := albs.length
      artistLower := strLower a })).insertionSort
    (fun x y => strLe x.artistLower y.artistLower = true)

/-- One output document of the album pipeline after the `$project` stage. -/
structure AlbumStat where
  artist : String
  album : String
  songCount : Nat
  albumLower : String
deriving DecidableEq, Repr

/-- Lines 332–348: `$group: { _id: { artist: '$artist', album: '$album' },
songCount: { $sum: 1 } }`, `$project` adding
`albumLower: { $toLower: '$_id.album' }`, then `$sort: { albumLower: 1 }`
(the sort key is the album name alone). -/
def albumStats (l : List MusicEntry) : List AlbumStat :=
  let keys := (l.map (fun m => (m.artist, m.album))).dedup
  (keys.map (fun k =>
    let grp := l.filter (fun m => decide (m.artist = k.1 ∧ m.album = k.2))
    { artist := k.1
      album := k.2
      songCount := grp.length
      albumLower := strLower k.2 })).insertionSort
    (fun x y => strLe x.albumLower y.albumLower = true)

/-- The `totals` object of the statistics payload. -/
structure StatsTotals where
  songs : Nat
  artists : Nat
  albums : Nat
  genres : Nat
deriving DecidableEq, Repr

/-- The `data` object of the statistics payload. -/
structure StatsData where
  totals : StatsTotals
  songsPerGenre : List GenreCount
  artistStats : List ArtistStat
  albumStats : List AlbumStat
deriving DecidableEq, Repr

/-- The store operations awaited by `getMusicStatistics`, each of which may
reject (`Except.error` models a rejected promise). -/
structure StatsStore where
  countDocuments : Except String Nat
  distinctArtists : Except String (List String)
  distinctAlbums : Except String (List String)
  totalGenresAgg : Except String Nat
  songsPerGenreAgg : Except String (List GenreCount)
  artistStatsAgg : Except String (List ArtistStat)
  albumStatsAgg : Except String (List AlbumStat)

/-- Outcome of a `GET /music/statistics` request. -/
inductive StatsResult where
  | ok (status : Nat) (data : StatsData)
  | err (status : Nat) (message : String)
deriving DecidableEq, Repr

/-- The body of the `try` block in `getMusicStatistics`: seven sequential
awaits; the first rejection aborts the rest. -/
def getMusicStatisticsRun (s : StatsStore) : Except String StatsData := do
  let totalSongs ← s.countDocuments
  let artists ← s.distinctArtists
  let albums ← s.distinctAlbums
  let genreTotal ← s.totalGenresAgg
  let perGenre ← s.songsPerGenreAgg
  let perArtist ← s.artistStatsAgg
  let perAlbum ← s.albumStatsAgg
  pure
    { totals :=
        { songs := totalSongs
          artists := artists.length
          albums := albums.length
          genres := genreTotal }
      songsPerGenre := perGenre
      artistStats := perArtist
      albumStats := perAlbum }

/-- `getMusicStatistics` (lines 291–369): on success the complete report with
status 200; a rejection reaches `catch`/`next(error)` and the global error
handler of `server.ts` answers 500 with the error's message. -/
def getMusicStatistics (s : StatsStore) : StatsResult :=
  match getMusicStatisticsRun s with
  | .ok d => .ok 200 d
  | .error e => .err 500 e

/-- The store backed by the record list `l`, every operation succeeding with
the embedded pipeline results. -/
def musicStatsStore (l : List MusicEntry) : StatsStore :=
  { countDocuments := .ok l.length
    distinctArtists := .ok (l.map (·.artist)).dedup
    distinctAlbums := .ok (l.map (·.album)).dedup
    totalGenresAgg := .ok (totalGenres l)
    songsPerGenreAgg := .ok (songsPerGenre l)
    artistStatsAgg := .ok (artistStats l)
    albumStatsAgg := .ok (albumStats l) }

/-! ## `createMusic` and its validation chain
(`validateCreateMusic` in `middleware/validation.ts`, `createMusic` lines
7–58, global error handler in `server.ts`). -/

/-- The `genres` field of a multipart body: absent, a single string, or an
array of strings. -/
inductive GenresVal where
  | missing
  | single (s : String)
  | multiple (l : List String)
deriving DecidableEq, Repr

/-- `body('title').notEmpty().withMessage('Title is required')
.isLength({ max: 200 }).withMessage('Title cannot exceed 200 characters')`.
express-validator coerces an absent field to `''`; every validator of the
chain runs and contributes its message on failure, in chain order. -/
def titleErrors (v : Option String) : List String :=
  let s := v.getD ""
  (if s.isEmpty then ["Title is required"] else []) ++
  (if s.length > 200 then ["Title cannot exceed 200 characters"] else [])

/-- `body('artist')` chain: required, at most 100 characters. -/
def artistErrors (v : Option String) : List String :=
  let s := v.getD ""
  (if s.isEmpty then ["Artist is required"] else []) ++
  (if s.length > 100 then ["Artist name cannot exceed 100 characters"] else [])

/-- `body('album')` chain: required, at most 100 characters. -/
def albumErrors (v : Option String) : List String :=
  let s := v.getD ""
  (if s.isEmpty then ["Album is required"] else []) ++
  (if s.length > 100 then ["Album name cannot exceed 100 characters"] else [])

/-- `body('genres').custom(...)`: wrap a lone value in an array, reject an
empty array, then require every element to be a non-blank string (an absent
field yields `[undefined]`, whose element is not a string). -/
def genresErrors (v : GenresVal) : List String :=
  match v with
  | .missing => ["All genres must be non-empty strings"]
  | .single s =>
    if (strTrim s).length > 0 then [] else ["All genres must be non-empty strings"]
  | .multiple gs =>
    if gs.length = 0 then ["At least one genre is required"]
    else if gs.all (fun g => (strTrim g).length > 0) then []
    else ["All genres must be non-empty strings"]

/-- The full `validateCreateMusic` chain: messages of all failing validators
in chain order (`errors.array()`). -/
def validateCreateMusic (title artist album : Option String) (genres : GenresVal) :
    List String :=
  titleErrors title ++ artistErrors artist ++ albumErrors album ++ genresErrors genres

/-- Outcome of a `POST /music` request. -/
inductive CreateResult where
  | validationFailed (status : Nat) (message error : String)
  | serverError (status : Nat) (message : String)
  | created (status : Nat) (music : MusicEntry)
deriving DecidableEq, Repr

/-- `createMusic` (lines 7–58), paired with whether `music.save()` ran.
Validation errors answer 400 with `errors.array()[0].msg`; with a valid body
but no uploaded file the handler throws `Error("Album art picture required")`,
which `next(error)` hands to the global error handler in `server.ts`
(status 500, the error's message); otherwise the document is saved with
`albumArt = CORS_ORIGIN + "/" + req.file.path` and answered with 201. -/
def createMusic (title artist album : Option String) (genres : GenresVal)
    (file : Option String) (corsOrigin : String) (now : Nat) : CreateResult × Bool :=
  match validateCreateMusic title artist album genres with
  | e :: _ => (.validationFailed 400 "Validation failed" e, false)
  | [] =>
    match file with
    | none => (.serverError 500 "Album art picture required", false)
    | some path =>
      (.created 201
        { title := strTrim (title.getD "")
          artist := strTrim (artist.getD "")
          album := strTrim (album.getD "")
          albumArt := corsOrigin ++ "/" ++ path
          genres :=
            match genres with
            | .missing => []
            | .single s => [s]
            | .multiple gs => gs
          createdAt := now
          updatedAt := now }, true)

/-- The HTTP status carried by a `createMusic` outcome. -/
def CreateResult.statusOf : CreateResult → Nat
  | .validationFailed st _ _ => st
  | .serverError st _ => st
  | .created st _ => st

/-! ## Test fixtures

The two records of the specification's §8 scenario, and a three-record
store whose album statistics interleave two artists. -/

def sampleA : MusicEntry :=
  { title := "A", artist := "X", album := "M1", albumArt := "u1"
    genres := ["Rock"], createdAt := 1, updatedAt := 1 }

def sampleB : MusicEntry :=
  { title := "B", artist := "X", album := "M2", albumArt := "u2"
    genres := ["Rock", "Pop"], createdAt := 2, updatedAt := 2 }

def demoA : MusicEntry :=
  { title := "t1", artist := "X", album := "Alpha", albumArt := "u"
    genres := ["g"], createdAt := 1, updatedAt := 1 }

def demoB : MusicEntry :=
  { title := "t2", artist := "Y", album := "Beta", albumArt := "u"
    genres := ["g"], createdAt := 2, updatedAt := 2 }

def demoC : MusicEntry :=
  { title := "t3", artist := "X", album := "Gamma", albumArt := "u"
    genres := ["g"], createdAt := 3, updatedAt := 3 }

/-- The statistics report of the two-record §8 scenario store
`[sampleA, sampleB]`. -/
def sampleStats : StatsData :=
  { totals := { songs := 2, artists := 1, albums := 2, genres := 2 }
    songsPerGenre := [{ _id := "Rock", count := 2 }, { _id := "Pop", count := 1 }]
    artistStats :=
      [{ artist := "X", songCount := 2, albums := ["M1", "M2"], albumCount := 2
         artistLower := "x" }]
    albumStats :=
      [{ artist := "X", album := "M1", songCount := 1, albumLower := "m1" },
       { artist := "X", album := "M2", songCount := 1, albumLower := "m2" }] }

end SpicyMusic

namespace SpicyMusic

/-! # Helper lemmas -/

theorem charListLe_total (a b : List Char) : charListLe a b = true ∨ charListLe b a = true := by
  induction a generalizing b with
  | nil => exact .inl rfl
  | cons x xs ih =>
    cases b with
    | nil => exact .inr rfl
    | cons y ys =>
      by_cases h1 : x.toNat < y.toNat
      · exact .inl (by simp [charListLe, h1])
      · by_cases h2 : y.toNat < x.toNat
        · exact .inr (by simp [charListLe, h2])
        · rcases ih ys with h | h
          · exact .inl (by simp [charListLe, h1, h2, h])
          · exact .inr (by simp [charListLe, h1, h2, h])

theorem charListLe_trans (a b c : List Char) (hab : charListLe a b = true)
    (hbc : charListLe b c = true) : charListLe a c = true := by
  induction a generalizing b c with
  | nil => rfl
  | cons x xs ih =>
    cases b with
    | nil => simp [charListLe] at hab
    | cons y ys =>
      cases c with
      | nil => simp [charListLe] at hbc
      | cons z zs =>
        by_cases hxy : x.toNat < y.toNat
        · by_cases hyz : y.toNat < z.toNat
          · simp [charListLe, show x.toNat < z.toNat by omega]
          · by_cases hzy : z.toNat < y.toNat
            · simp [charListLe, hyz, hzy] at hbc
            · simp [charListLe, show x.toNat < z.toNat by omega]
        · by_cases hyx : y.toNat < x.toNat
          · simp [charListLe, hxy, hyx] at hab
          · have hab' : charListLe xs ys = true := by
              simpa [charListLe, hxy, hyx] using hab
            by_cases hyz : y.toNat < z.toNat
            · simp [charListLe, show x.toNat < z.toNat by omega]
            · by_cases hzy : z.toNat < y.toNat
              · simp [charListLe, hyz, hzy] at hbc
              · have hbc' : charListLe ys zs = true := by
                  simpa [charListLe, hyz, hzy] using hbc
                simp [charListLe, show ¬ x.toNat < z.toNat by omega,
                  show ¬ z.toNat < x.toNat by omega, ih ys zs hab' hbc']

theorem strLe_total (a b : String) : strLe a b = true ∨ strLe b a = true :=
  charListLe_total _ _

theorem strLe_trans (a b c : String) (hab : strLe a b = true) (hbc : strLe b c = true) :
    strLe a c = true :=
  charListLe_trans _ _ _ hab hbc

theorem toFinset_dedup_list {α : Type _} [DecidableEq α] (l : List α) :
    l.dedup.toFinset = l.toFinset := by
  ext a
  simp [List.mem_toFinset, List.mem_dedup]

/-- The statistics handler over the store backed by record list `l` always
succeeds with the four embedded aggregation results. -/
theorem getMusicStatistics_musicStatsStore (l : List MusicEntry) :
    getMusicStatistics (musicStatsStore l) = .ok 200
      { totals :=
          { songs := l.length
            artists := (l.map (fun m => m.artist)).dedup.length
            albums := (l.map (fun m => m.album)).dedup.length
            genres := totalGenres l }
        songsPerGenre := songsPerGenre l
        artistStats := artistStats l
        albumStats := albumStats l } := rfl

theorem matchesFilter_eq_true_iff (f : MusicFilter) (m : MusicEntry) :
    matchesFilter f m = true ↔
      (∀ q, f.search = some q → textMatches q m = true) ∧
      (∀ p, f.artist = some p → ciTest p m.artist = true) ∧
      (∀ p, f.album = some p → ciTest p m.album = true) ∧
      (∀ p, f.genre = some p → m.genres.any (fun g => ciTest p g) = true) := by
  obtain ⟨s, a, al, g⟩ := f
  cases s <;> cases a <;> cases al <;> cases g <;> simp [matchesFilter, and_assoc]

theorem matchesFilter_mono (f f' : MusicFilter)
    (hs : f.search = f'.search ∨ f.search = none)
    (ha : f.artist = f'.artist ∨ f.artist = none)
    (hal : f.album = f'.album ∨ f.album = none)
    (hg : f.genre = f'.genre ∨ f.genre = none)
    (x : MusicEntry) (hx : matchesFilter f' x = true) : matchesFilter f x = true := by
  rw [matchesFilter_eq_true_iff] at hx ⊢
  obtain ⟨h1, h2, h3, h4⟩ := hx
  refine ⟨?_, ?_, ?_, ?_⟩
  · intro q hq
    rcases hs with he | hn
    · exact h1 q (by rw [← he]; exact hq)
    · rw [hn] at hq; cases hq
  · intro p hp
    rcases ha with he | hn
    · exact h2 p (by rw [← he]; exact hp)
    · rw [hn] at hp; cases hp
  · intro p hp
    rcases hal with he | hn
    · exact h3 p (by rw [← he]; exact hp)
    · rw [hn] at hp; cases hp
  · intro p hp
    rcases hg with he | hn
    · exact h4 p (by rw [← he]; exact hp)
    · rw [hn] at hp; cases hp

theorem jsCeilDiv_ofNat (t k : Nat) (hk : 0 < k) :
    jsCeilDiv (Int.ofNat t) (Int.ofNat k) = Int.ofNat ((t + k - 1) / k) := by
  obtain ⟨n, rfl⟩ : ∃ n, k = n + 1 := ⟨k - 1, by omega⟩
  cases t with
  | zero =>
    show -((-(Int.ofNat 0)).fdiv (Int.ofNat (n + 1)))
        = Int.ofNat ((0 + (n + 1) - 1) / (n + 1))
    rw [show (0 + (n + 1) - 1) / (n + 1) = 0 from Nat.div_eq_of_lt (by omega)]
    show -((0 : Int).fdiv (Int.ofNat (n + 1))) = Int.ofNat 0
    rw [Int.zero_fdiv]
    rfl
  | succ m =>
    show -((-(Int.ofNat (m + 1))).fdiv (Int.ofNat (n + 1)))
        = Int.ofNat ((m + 1 + (n + 1) - 1) / (n + 1))
    rw [show (-(Int.ofNat (m + 1))).fdiv (Int.ofNat (n + 1))
        = Int.negSucc (m / (n + 1)) from rfl]
    show Int.ofNat (m / (n + 1) + 1) = Int.ofNat ((m + 1 + (n + 1) - 1) / (n + 1))
    rw [show m + 1 + (n + 1) - 1 = m + (n + 1) by omega,
      Nat.add_div_right _ (by omega)]

/-! # Claims -/

/-- C7 counterexample: the query value `"-2"` is parseable, but not as a
positive integer; the claim would default it to `1`, yet the code keeps
`-2`, because `parseInt("-2") = -2` is truthy. -/
theorem pageParam_negative_counterexample :
    jsParseInt "-2" = some (-2) ∧ ¬ (0 : Int) < -2 ∧
      pageParam (some "-2") = -2 ∧ pageParam (some "-2") ≠ 1 := by
  refine ⟨by decide, by decide, by decide, by decide⟩

/-- C7 (amended): `page` and `limit` default to 1 and 10 exactly when the
parameter is absent, has no parseable leading integer, or parses to `0`
(zero is falsy); a parameter parsing to any nonzero integer — including a
negative one — is used as parsed.  `sortBy` defaults to `"createdAt"` and
`sortOrder` to `"desc"` when absent or empty. -/
theorem query_param_defaults (pv lv sv ov : Option String) :
    (pv = none → pageParam pv = 1) ∧
    (∀ s, pv = some s → jsParseInt s = none → pageParam pv = 1) ∧
    (∀ s, pv = some s → jsParseInt s = some 0 → pageParam pv = 1) ∧
    (∀ s n, pv = some s → jsParseInt s = some n → n ≠ 0 → pageParam pv = n) ∧
    (lv = none → limitParam lv = 10) ∧
    (∀ s, lv = some s → jsParseInt s = none → limitParam lv = 10) ∧
    (∀ s, lv = some s → jsParseInt s = some 0 → limitParam lv = 10) ∧
    (∀ s n, lv = some s → jsParseInt s = some n → n ≠ 0 → limitParam lv = n) ∧
    ((sv = none ∨ sv = some "") → sortByParam sv = "createdAt") ∧
    ((ov = none ∨ ov = some "") → sortOrderParam ov = "desc") := by
  refine ⟨?_, ?_, ?_, ?_, ?_, ?_, ?_, ?_, ?_, ?_⟩
  · rintro rfl; rfl
  · rintro s rfl hn; simp [pageParam, parseIntOr, hn]
  · rintro s rfl hn; simp [pageParam, parseIntOr, hn]
  · rintro s n rfl hn hne; simp [pageParam, parseIntOr, hn, hne]
  · rintro rfl; rfl
  · rintro s rfl hn; simp [limitParam, parseIntOr, hn]
  · rintro s rfl hn; simp [limitParam, parseIntOr, hn]
  · rintro s n rfl hn hne; simp [limitParam, parseIntOr, hn, hne]
  · rintro (rfl | rfl) <;> rfl
  · rintro (rfl | rfl) <;> rfl

/-- Witness for `query_param_defaults` at concrete inputs. -/
theorem query_param_defaults_witness :
    pageParam (some "abc") = 1 ∧ limitParam (some "0") = 10 ∧
      sortByParam (some "") = "createdAt" ∧ sortOrderParam none = "desc" := by
  obtain ⟨h1, h2, h3, h4, h5, h6, h7, h8, h9, h10⟩ :=
    query_param_defaults (some "abc") (some "0") (some "") none
  exact ⟨h2 "abc" rfl (by decide), h7 "0" rfl (by decide),
    h9 (Or.inr rfl), h10 (Or.inl rfl)⟩

/-- C10: `searchMusic` answers the 400 envelope `'Search query is required'`
with zero store queries exactly when `q` is absent or the empty string; for
any non-empty `q` both store queries run and a 200 listing envelope is
returned. -/
theorem searchMusic_requires_query (q pv lv : Option String) (store : List MusicEntry) :
    (searchMusic q pv lv store = (.badRequest 400 "Search query is required", 0) ↔
      (q = none ∨ q = some "")) ∧
    (∀ s, q = some s → s ≠ "" →
      (searchMusic q pv lv store).2 = 2 ∧
      ∃ r, (searchMusic q pv lv store).1 = .ok 200 r) := by
  constructor
  · constructor
    · intro h
      cases q with
      | none => exact .inl rfl
      | some s =>
        by_cases hs : s = ""
        · exact .inr (by rw [hs])
        · simp [searchMusic, truthy, hs] at h
    · rintro (rfl | rfl) <;> rfl
  · rintro s rfl hs
    refine ⟨by simp [searchMusic, truthy, hs], ?_⟩
    simp only [searchMusic, truthy, hs, if_neg hs]
    exact ⟨_, rfl⟩

/-- Witness for `searchMusic_requires_query`: an empty query is rejected
like a missing one, and a non-empty query executes both store queries. -/
theorem searchMusic_requires_query_witness :
    searchMusic (some "") none none [sampleA]
        = (.badRequest 400 "Search query is required", 0) ∧
      (searchMusic (some "rock") none none [sampleA, sampleB]).2 = 2 :=
  ⟨(searchMusic_requires_query (some "") none none [sampleA]).1.mpr (Or.inr rfl),
   ((searchMusic_requires_query (some "rock") none none [sampleA, sampleB]).2
      "rock" rfl (by decide)).1⟩

/-- C8 counterexample: a request whose body is fully valid but whose
required `albumArt` file is missing is not answered with a 400 validation
envelope: the handler throws, and the global error handler answers 500 with
the raw error message. -/
theorem createMusic_missing_file_counterexample :
    createMusic (some "T") (some "A") (some "B") (.single "Rock") none "http://x" 0
        = (.serverError 500 "Album art picture required", false) ∧
      (createMusic (some "T") (some "A") (some "B") (.single "Rock") none
        "http://x" 0).1.statusOf = 500 ∧ (500 : Nat) ≠ 400 := by
  refine ⟨by decide, by decide, by decide⟩

/-- C8 (amended): a create request with a malformed or missing body field
(`title`, `artist`, `album`, `genres`) is rejected with status 400, message
`'Validation failed'` and the first failing validation message, and no
record is saved; a request with a valid body but no uploaded `albumArt`
file is also rejected without saving, but via a thrown error that the
global error handler surfaces as 500 `'Album art picture required'`. -/
theorem createMusic_rejections (title artist album : Option String) (genres : GenresVal)
    (file : Option String) (cors : String) (now : Nat) :
    (∀ e rest, validateCreateMusic title artist album genres = e :: rest →
      createMusic title artist album genres file cors now
        = (.validationFailed 400 "Validation failed" e, false)) ∧
    (validateCreateMusic title artist album genres = [] → file = none →
      createMusic title artist album genres file cors now
        = (.serverError 500 "Album art picture required", false)) := by
  constructor
  · intro e rest h
    simp [createMusic, h]
  · intro h hf
    subst hf
    simp [createMusic, h]

/-- Witness for `createMusic_rejections`: a missing title is answered with
its validation message, and a missing file with the 500 error. -/
theorem createMusic_rejections_witness :
    createMusic none (some "A") (some "B") (.single "Rock") (some "p.png") "o" 0
        = (.validationFailed 400 "Validation failed" "Title is required", false) ∧
      createMusic (some "T") (some "A") (some "B") (.single "Rock") none "o" 0
        = (.serverError 500 "Album art picture required", false) :=
  ⟨(createMusic_rejections none (some "A") (some "B") (.single "Rock")
      (some "p.png") "o" 0).1 "Title is required" [] (by decide),
   (createMusic_rejections (some "T") (some "A") (some "B") (.single "Rock")
      none "o" 0).2 (by decide) rfl⟩

/-- C9: `getMusicStatistics` is all-or-nothing: either every store call
succeeded and the response is the complete report assembled from exactly
those seven results, or some call failed and the response is a 500 failure
envelope carrying that call's error and no statistics data. -/
theorem getMusicStatistics_all_or_nothing (s : StatsStore) :
    (∃ d, getMusicStatistics s = .ok 200 d ∧
      s.countDocuments = .ok d.totals.songs ∧
      (∃ as, s.distinctArtists = .ok as ∧ d.totals.artists = as.length) ∧
      (∃ als, s.distinctAlbums = .ok als ∧ d.totals.albums = als.length) ∧
      s.totalGenresAgg = .ok d.totals.genres ∧
      s.songsPerGenreAgg = .ok d.songsPerGenre ∧
      s.artistStatsAgg = .ok d.artistStats ∧
      s.albumStatsAgg = .ok d.albumStats) ∨
    (∃ e, getMusicStatistics s = .err 500 e ∧
      (s.countDocuments = .error e ∨ s.distinctArtists = .error e ∨
       s.distinctAlbums = .error e ∨ s.totalGenresAgg = .error e ∨
       s.songsPerGenreAgg = .error e ∨ s.artistStatsAgg = .error e ∨
       s.albumStatsAgg = .error e)) := by
  obtain ⟨cd, da, dal, tg, pg, pa, pal⟩ := s
  cases cd with
  | error e => exact .inr ⟨e, rfl, .inl rfl⟩
  | ok tc =>
  cases da with
  | error e => exact .inr ⟨e, rfl, .inr (.inl rfl)⟩
  | ok as =>
  cases dal with
  | error e => exact .inr ⟨e, rfl, .inr (.inr (.inl rfl))⟩
  | ok als =>
  cases tg with
  | error e => exact .inr ⟨e, rfl, .inr (.inr (.inr (.inl rfl)))⟩
  | ok tgv =>
  cases pg with
  | error e => exact .inr ⟨e, rfl, .inr (.inr (.inr (.inr (.inl rfl))))⟩
  | ok pgv =>
  cases pa with
  | error e => exact .inr ⟨e, rfl, .inr (.inr (.inr (.inr (.inr (.inl rfl)))))⟩
  | ok pav =>
  cases pal with
  | error e => exact .inr ⟨e, rfl, .inr (.inr (.inr (.inr (.inr (.inr rfl)))))⟩
  | ok palv =>
    exact .inl ⟨_, rfl, rfl, ⟨as, rfl, rfl⟩, ⟨als, rfl, rfl⟩, rfl, rfl, rfl, rfl⟩

/-- C3: the statistics totals are the cardinalities of the distinct values:
`songs` counts all records, `artists` and `albums` count the distinct
artist/album values, and `genres` counts the deduplicated set of all genre
strings obtained by flattening every record's genre sequence. -/
theorem stats_totals (l : List MusicEntry) (d : StatsData)
    (h : getMusicStatistics (musicStatsStore l) = .ok 200 d) :
    d.totals.songs = l.length ∧
    d.totals.artists = (l.map (fun m => m.artist)).toFinset.card ∧
    d.totals.albums = (l.map (fun m => m.album)).toFinset.card ∧
    d.totals.genres = ((l.map (fun m => m.genres)).flatten).toFinset.card := by
  rw [getMusicStatistics_musicStatsStore] at h
  simp only [StatsResult.ok.injEq] at h
  obtain ⟨-, rfl⟩ := h
  refine ⟨rfl, ?_, ?_, ?_⟩
  · exact (List.card_toFinset _).symm
  · exact (List.card_toFinset _).symm
  · exact (List.card_toFinset _).symm

/-- Witness for `stats_totals` on the §8 scenario store. -/
theorem stats_totals_witness :
    sampleStats.totals.songs = [sampleA, sampleB].length ∧
    sampleStats.totals.artists = ([sampleA, sampleB].map (fun m => m.artist)).toFinset.card ∧
    sampleStats.totals.albums = ([sampleA, sampleB].map (fun m => m.album)).toFinset.card ∧
    sampleStats.totals.genres
      = (([sampleA, sampleB].map (fun m => m.genres)).flatten).toFinset.card :=
  stats_totals [sampleA, sampleB] sampleStats (by decide)

/-- C4: `songsPerGenre` has one entry per distinct genre of the flattened
(record, genre) pairs, each entry counts the pairs of its group, entries are
sorted by count descending, and the counts sum to the total number of
pairs, i.e. the sum of the genre-sequence lengths. -/
theorem stats_songsPerGenre (l : List MusicEntry) (d : StatsData)
    (h : getMusicStatistics (musicStatsStore l) = .ok 200 d) :
    (d.songsPerGenre.map (fun e => e._id)).Perm
      (((l.map (fun m => m.genres)).flatten).dedup) ∧
    (∀ e ∈ d.songsPerGenre,
      e.count = ((l.map (fun m => m.genres)).flatten).count e._id) ∧
    List.Sorted (fun a b => b.count ≤ a.count) d.songsPerGenre ∧
    (d.songsPerGenre.map (fun e => e.count)).sum
      = (l.map (fun m => m.genres.length)).sum := by
  rw [getMusicStatistics_musicStatsStore] at h
  simp only [StatsResult.ok.injEq] at h
  obtain ⟨-, rfl⟩ := h
  refine ⟨?_, ?_, ?_, ?_⟩
  · have hp := (List.perm_insertionSort
      (fun a b : GenreCount => b.count ≤ a.count)
      ((unwindGenres l).dedup.map
        (fun g => { _id := g, count := (unwindGenres l).count g }))).map
      (fun e => e._id)
    simpa [songsPerGenre, List.map_map, Function.comp_def, List.map_id', unwindGenres] using hp
  · intro e he
    simp only [songsPerGenre, List.mem_insertionSort, List.mem_map] at he
    obtain ⟨g, hg, rfl⟩ := he
    rfl
  · haveI : IsTotal GenreCount (fun a b => b.count ≤ a.count) :=
      ⟨fun a b => Nat.le_total b.count a.count⟩
    haveI : IsTrans GenreCount (fun a b => b.count ≤ a.count) :=
      ⟨fun _ _ _ hab hbc => Nat.le_trans hbc hab⟩
    exact List.sorted_insertionSort _ _
  · have hp := (List.perm_insertionSort
      (fun a b : GenreCount => b.count ≤ a.count)
      ((unwindGenres l).dedup.map
        (fun g => { _id := g, count := (unwindGenres l).count g }))).map
      (fun e => e.count)
    have hsum : ((songsPerGenre l).map (fun e => e.count)).sum
        = (((unwindGenres l).dedup.map
            (fun g => { _id := g, count := (unwindGenres l).count g } : String → GenreCount)).map
              (fun e => e.count)).sum :=
      hp.sum_eq
    rw [hsum, List.map_map]
    have : ((fun e : GenreCount => e.count) ∘
        (fun g => { _id := g, count := (unwindGenres l).count g }))
        = fun g => (unwindGenres l).count g := rfl
    rw [this, List.sum_map_count_dedup_eq_length, unwindGenres, List.length_flatten,
      List.map_map]
    rfl

/-- Witness for `stats_songsPerGenre` on the §8 scenario store. -/
theorem stats_songsPerGenre_witness :
    (sampleStats.songsPerGenre.map (fun e => e._id)).Perm
      ((([sampleA, sampleB].map (fun m => m.genres)).flatten).dedup) ∧
    (∀ e ∈ sampleStats.songsPerGenre,
      e.count = (([sampleA, sampleB].map (fun m => m.genres)).flatten).count e._id) ∧
    List.Sorted (fun a b => b.count ≤ a.count) sampleStats.songsPerGenre ∧
    (sampleStats.songsPerGenre.map (fun e => e.count)).sum
      = ([sampleA, sampleB].map (fun m => m.genres.length)).sum :=
  stats_songsPerGenre [sampleA, sampleB] sampleStats (by decide)

/-- C5: `artistStats` has one entry per distinct artist, sorted by
case-insensitive artist name ascending; each entry's `songCount` is the
number of that artist's records, `albums` is the set of distinct album
values among them (duplicate-free), and `albumCount` is that set's size. -/
theorem stats_artistStats (l : List MusicEntry) (d : StatsData)
    (h : getMusicStatistics (musicStatsStore l) = .ok 200 d) :
    (d.artistStats.map (fun e => e.artist)).Perm ((l.map (fun m => m.artist)).dedup) ∧
    List.Sorted (fun x y => strLe (strLower x.artist) (strLower y.artist) = true)
      d.artistStats ∧
    (∀ e ∈ d.artistStats,
      e.songCount = (l.filter (fun m => decide (m.artist = e.artist))).length ∧
      e.albums.Nodup ∧
      e.albums.toFinset
        = ((l.filter (fun m => decide (m.artist = e.artist))).map
            (fun m => m.album)).toFinset ∧
      e.albumCount
        = ((l.filter (fun m => decide (m.artist = e.artist))).map
            (fun m => m.album)).toFinset.card) := by
  rw [getMusicStatistics_musicStatsStore] at h
  simp only [StatsResult.ok.injEq] at h
  obtain ⟨-, rfl⟩ := h
  have hunfold : artistStats l
      = List.insertionSort (fun x y => strLe x.artistLower y.artistLower = true)
        (((l.map (fun m => m.artist)).dedup).map (fun a =>
          { artist := a
            songCount := (l.filter (fun m => decide (m.artist = a))).length
            albums := ((l.filter (fun m => decide (m.artist = a))).map
              (fun m => m.album)).dedup
            albumCount := ((l.filter (fun m => decide (m.artist = a))).map
              (fun m => m.album)).dedup.length
            artistLower := strLower a })) := rfl
  refine ⟨?_, ?_, ?_⟩
  · have hp := (List.perm_insertionSort
      (fun x y : ArtistStat => strLe x.artistLower y.artistLower = true)
      (((l.map (fun m => m.artist)).dedup).map (fun a =>
        { artist := a
          songCount := (l.filter (fun m => decide (m.artist = a))).length
          albums := ((l.filter (fun m => decide (m.artist = a))).map
            (fun m => m.album)).dedup
          albumCount := ((l.filter (fun m => decide (m.artist = a))).map
            (fun m => m.album)).dedup.length
          artistLower := strLower a }))).map (fun e => e.artist)
    rw [hunfold]
    simpa [List.map_map, Function.comp_def, List.map_id'] using hp
  · have hsorted : List.Sorted
        (fun x y : ArtistStat => strLe x.artistLower y.artistLower = true)
        (artistStats l) := by
      rw [hunfold]
      haveI : IsTotal ArtistStat (fun x y => strLe x.artistLower y.artistLower = true) :=
        ⟨fun a b => strLe_total _ _⟩
      haveI : IsTrans ArtistStat (fun x y => strLe x.artistLower y.artistLower = true) :=
        ⟨fun a b c => strLe_trans _ _ _⟩
      exact List.sorted_insertionSort _ _
    have hfield : ∀ e ∈ artistStats l, e.artistLower = strLower e.artist := by
      intro e he
      rw [hunfold] at he
      simp only [List.mem_insertionSort, List.mem_map] at he
      obtain ⟨a, ha, rfl⟩ := he
      rfl
    exact List.Pairwise.imp_of_mem
      (fun ha hb hr => by rw [← hfield _ ha, ← hfield _ hb]; exact hr) hsorted
  · intro e he
    rw [hunfold] at he
    simp only [List.mem_insertionSort, List.mem_map] at he
    obtain ⟨a, ha, rfl⟩ := he
    exact ⟨rfl, List.nodup_dedup _, toFinset_dedup_list _, (List.card_toFinset _).symm⟩

/-- Witness for `stats_artistStats` on the §8 scenario store. -/
theorem stats_artistStats_witness :
    (sampleStats.artistStats.map (fun e => e.artist)).Perm
      (([sampleA, sampleB].map (fun m => m.artist)).dedup) ∧
    List.Sorted (fun x y => strLe (strLower x.artist) (strLower y.artist) = true)
      sampleStats.artistStats ∧
    (∀ e ∈ sampleStats.artistStats,
      e.songCount
        = ([sampleA, sampleB].filter (fun m => decide (m.artist = e.artist))).length ∧
      e.albums.Nodup ∧
      e.albums.toFinset
        = (([sampleA, sampleB].filter (fun m => decide (m.artist = e.artist))).map
            (fun m => m.album)).toFinset ∧
      e.albumCount
        = (([sampleA, sampleB].filter (fun m => decide (m.artist = e.artist))).map
            (fun m => m.album)).toFinset.card) :=
  stats_artistStats [sampleA, sampleB] sampleStats (by decide)

/-- C6: `albumStats` has one entry per distinct (artist, album) pair with
`songCount` the number of records of that pair, and the entries are ordered
by case-insensitive album name alone ascending; on the three-record demo
store the two albums of artist `X` are separated by artist `Y`'s album,
so same-artist entries interleave rather than group. -/
theorem stats_albumStats (l : List MusicEntry) (d : StatsData)
    (h : getMusicStatistics (musicStatsStore l) = .ok 200 d) :
    (d.albumStats.map (fun e => (e.artist, e.album))).Perm
      ((l.map (fun m => (m.artist, m.album))).dedup) ∧
    (∀ e ∈ d.albumStats,
      e.songCount = (l.filter (fun m =>
        decide (m.artist = e.artist ∧ m.album = e.album))).length) ∧
    List.Sorted (fun x y => strLe (strLower x.album) (strLower y.album) = true)
      d.albumStats ∧
    (albumStats [demoA, demoB, demoC]).map (fun e => e.artist) = ["X", "Y", "X"] := by
  rw [getMusicStatistics_musicStatsStore] at h
  simp only [StatsResult.ok.injEq] at h
  obtain ⟨-, rfl⟩ := h
  have hunfold : albumStats l
      = List.insertionSort (fun x y => strLe x.albumLower y.albumLower = true)
        (((l.map (fun m => (m.artist, m.album))).dedup).map (fun k =>
          { artist := k.1
            album := k.2
            songCount := (l.filter (fun m =>
              decide (m.artist = k.1 ∧ m.album = k.2))).length
            albumLower := strLower k.2 })) := rfl
  refine ⟨?_, ?_, ?_, by decide⟩
  · have hp := (List.perm_insertionSort
      (fun x y : AlbumStat => strLe x.albumLower y.albumLower = true)
      (((l.map (fun m => (m.artist, m.album))).dedup).map (fun k =>
        { artist := k.1
          album := k.2
          songCount := (l.filter (fun m =>
            decide (m.artist = k.1 ∧ m.album = k.2))).length
          albumLower := strLower k.2 }))).map (fun e => (e.artist, e.album))
    rw [hunfold]
    simpa [List.map_map, Function.comp_def, List.map_id'] using hp
  · intro e he
    rw [hunfold] at he
    simp only [List.mem_insertionSort, List.mem_map] at he
    obtain ⟨k, hk, rfl⟩ := he
    rfl
  · have hsorted : List.Sorted
        (fun x y : AlbumStat => strLe x.albumLower y.albumLower = true)
        (albumStats l) := by
      rw [hunfold]
      haveI : IsTotal AlbumStat (fun x y => strLe x.albumLower y.albumLower = true) :=
        ⟨fun a b => strLe_total _ _⟩
      haveI : IsTrans AlbumStat (fun x y => strLe x.albumLower y.albumLower = true) :=
        ⟨fun a b c => strLe_trans _ _ _⟩
      exact List.sorted_insertionSort _ _
    have hfield : ∀ e ∈ albumStats l, e.albumLower = strLower e.album := by
      intro e he
      rw [hunfold] at he
      simp only [List.mem_insertionSort, List.mem_map] at he
      obtain ⟨k, hk, rfl⟩ := he
      rfl
    exact List.Pairwise.imp_of_mem
      (fun ha hb hr => by rw [← hfield _ ha, ← hfield _ hb]; exact hr) hsorted

/-- Witness for `stats_albumStats` on the §8 scenario store. -/
theorem stats_albumStats_witness :
    (sampleStats.albumStats.map (fun e => (e.artist, e.album))).Perm
      (([sampleA, sampleB].map (fun m => (m.artist, m.album))).dedup) ∧
    (∀ e ∈ sampleStats.albumStats,
      e.songCount = ([sampleA, sampleB].filter (fun m =>
        decide (m.artist = e.artist ∧ m.album = e.album))).length) ∧
    List.Sorted (fun x y => strLe (strLower x.album) (strLower y.album) = true)
      sampleStats.albumStats ∧
    (albumStats [demoA, demoB, demoC]).map (fun e => e.artist) = ["X", "Y", "X"] :=
  stats_albumStats [sampleA, sampleB] sampleStats (by decide)

/-- C2: the filter built by `getMusic` is conjunctive: a record is in the
filtered result iff it is in the store and satisfies every supplied clause
independently; and whenever a filter's clauses are a subset of another's
(each clause either absent or identical), the result set of the larger
filter is contained in that of the smaller one, so adding a filter never
increases the result set. -/
theorem filter_conjunctive (search artist album genre : Option String)
    (store : List MusicEntry) (m : MusicEntry) :
    (m ∈ store.filter (matchesFilter (buildFilter search artist album genre)) ↔
      m ∈ store ∧
      (∀ q, truthy search = some q → textMatches q m = true) ∧
      (∀ p, truthy artist = some p → ciTest p m.artist = true) ∧
      (∀ p, truthy album = some p → ciTest p m.album = true) ∧
      (∀ p, truthy genre = some p → m.genres.any (fun g => ciTest p g) = true)) ∧
    (∀ f f' : MusicFilter,
      (f.search = f'.search ∨ f.search = none) →
      (f.artist = f'.artist ∨ f.artist = none) →
      (f.album = f'.album ∨ f.album = none) →
      (f.genre = f'.genre ∨ f.genre = none) →
      ∀ x ∈ store.filter (matchesFilter f'), x ∈ store.filter (matchesFilter f)) := by
  constructor
  · rw [List.mem_filter]
    exact and_congr_right fun _ => matchesFilter_eq_true_iff _ _
  · intro f f' hs ha hal hg x hx
    rw [List.mem_filter] at hx ⊢
    exact ⟨hx.1, matchesFilter_mono f f' hs ha hal hg x hx.2⟩

/-- Witness for `filter_conjunctive`: the §8 scenario query
`?artist=x&genre=pop` keeps `sampleB`, and dropping the genre clause keeps
it as well (the smaller filter's result contains the larger's). -/
theorem filter_conjunctive_witness :
    sampleB ∈ [sampleA, sampleB].filter
      (matchesFilter (buildFilter none (some "x") none (some "pop"))) ∧
    sampleB ∈ [sampleA, sampleB].filter
      (matchesFilter (buildFilter none (some "x") none none)) := by
  have hmem : sampleB ∈ [sampleA, sampleB].filter
      (matchesFilter (buildFilter none (some "x") none (some "pop"))) := by
    refine (filter_conjunctive none (some "x") none (some "pop")
      [sampleA, sampleB] sampleB).1.mpr ⟨by decide, ?_, ?_, ?_, ?_⟩
    · intro q hq; cases hq
    · intro p hp
      have : p = "x" := by simpa [truthy] using hp.symm
      rw [this]; decide
    · intro p hp; cases hp
    · intro p hp
      have : p = "pop" := by simpa [truthy] using hp.symm
      rw [this]; decide
  refine ⟨hmem, ?_⟩
  exact (filter_conjunctive none (some "x") none none [sampleA, sampleB] sampleB).2
    (buildFilter none (some "x") none none)
    (buildFilter none (some "x") none (some "pop"))
    (Or.inl rfl) (Or.inl rfl) (Or.inl rfl) (Or.inr rfl) sampleB hmem

/-- C1: for every listing request with valid `page ≥ 1` and `limit ≥ 1`,
both `getMusic` and `searchMusic` produce the success envelope whose
`count` is the number of items in the returned page, whose
`pages = ceil(total / limit)`, and whose `count = min(limit, total - skip)`
when `skip < total` and `0` otherwise, with `skip = (page - 1) * limit`. -/
theorem listing_envelope (q : GetMusicQuery) (store : List MusicEntry)
    (P L : Nat) (hpage : pageParam q.page = (P : Int)) (hP : 1 ≤ P)
    (hlimit : limitParam q.limit = (L : Int)) (hL : 1 ≤ L) :
    ((getMusic q store).success = true ∧
     (getMusic q store).page = (P : Int) ∧
     (getMusic q store).count = (getMusic q store).data.length ∧
     (getMusic q store).pages = ((((getMusic q store).total + L - 1) / L : Nat) : Int) ∧
     ((P - 1) * L < (getMusic q store).total →
       (getMusic q store).count = min L ((getMusic q store).total - (P - 1) * L)) ∧
     ((getMusic q store).total ≤ (P - 1) * L → (getMusic q store).count = 0)) ∧
    (∀ qs, qs ≠ "" → ∀ r, (searchMusic (some qs) q.page q.limit store).1 = .ok 200 r →
      (r.success = true ∧ r.page = (P : Int) ∧ r.count = r.data.length ∧
       r.pages = (((r.total + L - 1) / L : Nat) : Int) ∧
       ((P - 1) * L < r.total → r.count = min L (r.total - (P - 1) * L)) ∧
       (r.total ≤ (P - 1) * L → r.count = 0))) := by
  have hskip : ((pageParam q.page - 1) * limitParam q.limit).toNat = (P - 1) * L := by
    rw [hpage, hlimit, show (P : Int) - 1 = ((P - 1 : Nat) : Int) by omega,
      ← Nat.cast_mul]
    omega
  have hlimN : (limitParam q.limit).toNat = L := by
    rw [hlimit]; omega
  constructor
  · have hcount : (getMusic q store).count
        = min L ((getMusic q store).total - (P - 1) * L) := by
      show (((findSorted (buildFilter q.search q.artist q.album q.genre)
          (sortByParam q.sortBy) (sortOrderParam q.sortOrder) store).drop
            ((pageParam q.page - 1) * limitParam q.limit).toNat).take
              (limitParam q.limit).toNat).length = _
      rw [List.length_take, List.length_drop, hskip, hlimN,
        show (findSorted (buildFilter q.search q.artist q.album q.genre)
          (sortByParam q.sortBy) (sortOrderParam q.sortOrder) store).length
          = (getMusic q store).total from List.length_insertionSort _ _]
    refine ⟨rfl, ?_, rfl, ?_, ?_, ?_⟩
    · show pageParam q.page = (P : Int)
      exact hpage
    · show jsCeilDiv (Int.ofNat (getMusic q store).total) (limitParam q.limit) = _
      rw [hlimit]
      exact jsCeilDiv_ofNat _ L (by omega)
    · intro h
      exact hcount
    · intro h
      rw [hcount]
      omega
  · intro qs hqs r hr
    simp only [searchMusic, truthy, if_neg hqs] at hr
    simp only [SearchResult.ok.injEq] at hr
    obtain ⟨-, rfl⟩ := hr
    have hcount : (List.take (limitParam q.limit).toNat
          (List.drop ((pageParam q.page - 1) * limitParam q.limit).toNat
            (List.insertionSort (fun a b => textScore qs b ≤ textScore qs a)
              (List.filter (textMatches qs) store)))).length
        = min L ((List.filter (textMatches qs) store).length - (P - 1) * L) := by
      rw [List.length_take, List.length_drop, hskip, hlimN, List.length_insertionSort]
    refine ⟨rfl, ?_, rfl, ?_, ?_, ?_⟩
    · show pageParam q.page = (P : Int)
      exact hpage
    · show jsCeilDiv (Int.ofNat (List.filter (textMatches qs) store).length)
        (limitParam q.limit) = _
      rw [hlimit]
      exact jsCeilDiv_ofNat _ L (by omega)
    · intro h
      exact hcount
    · intro h
      show (List.take (limitParam q.limit).toNat
        (List.drop ((pageParam q.page - 1) * limitParam q.limit).toNat
          (List.insertionSort (fun a b => textScore qs b ≤ textScore qs a)
            (List.filter (textMatches qs) store)))).length = 0
      rw [hcount]
      have h' : (List.filter (textMatches qs) store).length ≤ (P - 1) * L := h
      omega

/-- Witness for `listing_envelope`: `?page=2&limit=1` over the two-record
store. -/
theorem listing_envelope_witness :
    (getMusic { page := some "2", limit := some "1" } [sampleA, sampleB]).pages
      = ((((getMusic { page := some "2", limit := some "1" }
            [sampleA, sampleB]).total + 1 - 1) / 1 : Nat) : Int) ∧
    (getMusic { page := some "2", limit := some "1" } [sampleA, sampleB]).count
      = min 1
        ((getMusic { page := some "2", limit := some "1" } [sampleA, sampleB]).total
          - (2 - 1) * 1) := by
  have h := listing_envelope { page := some "2", limit := some "1" } [sampleA, sampleB]
    2 1 (by decide) (by decide) (by decide) (by decide)
  exact ⟨h.1.2.2.2.1, h.1.2.2.2.2.1 (by decide)⟩

end SpicyMusic
